import Mathlib

/-!
# otelcollectorsample: the tracing glue of `internal/main.go`

A shallow embedding of the program in `src/internal/main.go`.

* The functions of the source (`newExporter`, `newTraceProvider`, `httpHandler`,
  `wrapHandler`, `main`) are translated statement by statement.  Go statements act
  on an explicit state; `defer`, panics and `os.Exit` are handled by a small frame
  discipline (`Frame`).
* The libraries the program calls (context, net/http, the OpenTelemetry API, SDK,
  OTLP exporter, otelhttp, propagation) are not part of the source file.  What the
  program needs of them is either a parameter (`Env`, `Tracer.Start`,
  `ResponseWriter.onWrite`) or a definition whose doc comment says where it comes
  from.
-/

namespace OtelSample

/-! ## Identities and contexts -/

/-- Modelled from the spec: the SpanContext of section 3, the tuple of trace id, span id,
sampling flag and baggage (an ordered mapping of strings). The type lives in the
OpenTelemetry API, which the source only imports. -/
structure SpanContext where
  traceID : Nat
  spanID : Nat
  sampled : Bool
  baggage : List (String × String)
deriving DecidableEq, Repr

/-- Modelled from the spec: the Span record of section 3, restricted to name, own context and
parent linkage. -/
structure Span where
  name : String
  context : SpanContext
  parentSpanID : Option Nat
deriving DecidableEq, Repr

namespace context

/-- Go context.Context, as far as the program observes it: an optional deadline
(nanoseconds) and the span context stored in it by the tracing API. -/
structure Context where
  deadline : Option Nat
  span : Option SpanContext
deriving DecidableEq, Repr

/-- Go context.Background(): never cancelled, no values, no deadline. -/
def Background : Context := ⟨none, none⟩

end context

open context (Context)

/-! ## Go function frames: statements, defer, panic, exit -/

/-- How a Go function body is currently progressing. -/
inductive Status where
  | running
  | panicking (value : String)
  | exited (code : Nat)
  | blocked
deriving DecidableEq, Repr

/-- Activation record of a Go function over a state σ: the state, the stack of deferred
calls (most recent first) and the progress status. -/
structure Frame (σ : Type) where
  state : σ
  deferred : List (σ → σ)
  status : Status

namespace Frame

variable {σ : Type}

/-- Function entry. -/
def enter (s : σ) : Frame σ := ⟨s, [], Status.running⟩

/-- A statement executes only while the body is running normally; it yields the next state
and says whether the body goes on, panics, exits the process or blocks. -/
def stmt (f : Frame σ) (body : σ → σ × Status) : Frame σ :=
  match f.status with
  | Status.running => ⟨(body f.state).1, f.deferred, (body f.state).2⟩
  | _ => f

/-- A defer statement pushes a call on the stack of deferred calls. -/
def defer (f : Frame σ) (call : σ → σ) : Frame σ :=
  match f.status with
  | Status.running => ⟨f.state, call :: f.deferred, f.status⟩
  | _ => f

/-- Function exit: on normal return and on panic the deferred calls run, last registered
first; after os.Exit, or while a statement blocks for ever, none of them runs. -/
def leave (f : Frame σ) : σ × Status :=
  match f.status with
  | Status.running => (f.deferred.foldl (fun s call => call s) f.state, f.status)
  | Status.panicking _ => (f.deferred.foldl (fun s call => call s) f.state, f.status)
  | _ => (f.state, f.status)

end Frame

/-! ## net/http -/

namespace http

/-- Go http.Request, as far as the program observes it. -/
structure Request where
  method : String
  path : String
  header : List (String × String)
  body : String
  ctx : Context
deriving DecidableEq, Repr

/-- Go (*Request).Context. -/
def Request.Context (r : Request) : context.Context := r.ctx

/-- Go (*Request).WithContext: returns a shallow copy of the request with its context
changed; the receiver is left as it was. -/
def Request.WithContext (r : Request) (ctx : context.Context) : Request :=
  ⟨r.method, r.path, r.header, r.body, ctx⟩

/-- What a call of Write on a response writer comes to. -/
inductive WriteResult where
  | ok
  | err (e : String)
  | panics (value : String)
deriving DecidableEq, Repr

/-- Go http.ResponseWriter: an interface, so its behaviour on Write is a parameter; body
keeps the payload of every Write call received, in order. -/
structure ResponseWriter where
  body : List String
  onWrite : String → WriteResult

/-- One call of w.Write. -/
def ResponseWriter.Write (w : ResponseWriter) (p : String) : ResponseWriter × WriteResult :=
  (⟨w.body ++ [p], w.onWrite⟩, w.onWrite p)

end http

/-! ## Tracing API -/

/-- State of the tracing pipeline that Start reads and updates: the identifiers issued so
far. -/
structure TraceState where
  minted : List Nat
deriving DecidableEq, Repr

/-- Go trace.Tracer: an interface whose Start takes the ambient context and a span name and
returns the derived context and the span. -/
structure Tracer where
  name : String
  Start : TraceState → Context → String → Context × Span × TraceState

/-- The calls a handler makes that are visible from outside. -/
inductive Effect where
  | spanStart (ambient : Context) (name : String) (span : Span)
  | write (payload : String)
  | spanEnd (span : Span)
deriving DecidableEq, Repr

/-- The local state of one handler invocation: the writer, the request variable r, the
tracing state and the calls made so far. -/
structure HandlerState where
  w : http.ResponseWriter
  r : http.Request
  st : TraceState
  effects : List Effect

/-- Go http.Handler, with the tracing state threaded through. -/
abbrev Handler := TraceState → http.ResponseWriter → http.Request → HandlerState × Status

/-- The panic value of a method call on a nil interface. -/
def nilDereference : String := "runtime error: invalid memory address or nil pointer dereference"

/-- Source: httpHandler (main.go 55-62); tr is the package-level variable of line 20. -/
def httpHandler (tr : Option Tracer) : Handler := fun st w r =>
  match tr with
  | none => (⟨w, r, st, []⟩, Status.panicking nilDereference)
  | some t =>
    -- ctx, span := tr.Start(r.Context(), "teste")
    let started := t.Start st r.Context "teste"
    let ctx := started.1
    let span := started.2.1
    let f0 : Frame HandlerState :=
      Frame.enter ⟨w, r, started.2.2, [Effect.spanStart r.Context "teste" span]⟩
    -- defer span.End()
    let f1 := f0.defer (fun s => ⟨s.w, s.r, s.st, s.effects ++ [Effect.spanEnd span]⟩)
    -- r.WithContext(ctx): the copy it returns is dropped
    let f2 := f1.stmt (fun s => ((fun (_ : http.Request) => s) (s.r.WithContext ctx), Status.running))
    -- fmt.Fprintf(w, "Hello, World"): no verb in the format, one Write of the literal
    let f3 := f2.stmt (fun s =>
      (⟨(s.w.Write "Hello, World").1, s.r, s.st, s.effects ++ [Effect.write "Hello, World"]⟩,
        match (s.w.Write "Hello, World").2 with
        | http.WriteResult.panics v => Status.panicking v
        | _ => Status.running))
    f3.leave

/-! ## OTLP exporter over gRPC -/

namespace time

/-- Go time.Second, in nanoseconds (the unit of time.Duration). -/
def Second : Nat := 1000000000

end time

namespace otlptracegrpc

/-- Connection settings of the OTLP gRPC client. -/
structure Config where
  endpoint : String
  insecure : Bool
  timeout : Nat
  headers : List (String × String)
  compressor : String
deriving DecidableEq, Repr

/-- Go otlptracegrpc.Option: the functional options the program can pass to NewClient. -/
inductive Option where
  | WithInsecure
  | WithEndpoint (endpoint : String)
  | WithTimeout (duration : Nat)
  | WithHeaders (headers : List (String × String))
  | WithCompressor (compressor : String)
deriving DecidableEq, Repr

/-- One option applied to the settings. -/
def Option.apply (cfg : Config) : Option → Config
  | WithInsecure => ⟨cfg.endpoint, true, cfg.timeout, cfg.headers, cfg.compressor⟩
  | WithEndpoint e => ⟨e, cfg.insecure, cfg.timeout, cfg.headers, cfg.compressor⟩
  | WithTimeout d => ⟨cfg.endpoint, cfg.insecure, d, cfg.headers, cfg.compressor⟩
  | WithHeaders h => ⟨cfg.endpoint, cfg.insecure, cfg.timeout, h, cfg.compressor⟩
  | WithCompressor c => ⟨cfg.endpoint, cfg.insecure, cfg.timeout, cfg.headers, c⟩

/-- Go otlptrace.Client as built by otlptracegrpc.NewClient. -/
structure Client where
  opts : List Option
  cfg : Config
deriving DecidableEq, Repr

/-- Go otlptracegrpc.NewClient: the options are applied in order on top of the defaults
(the library's built-in values as overridden by the process environment), which are a
parameter here. -/
def NewClient (defaults : Config) (opts : List Option) : Client :=
  ⟨opts, opts.foldl Option.apply defaults⟩

end otlptracegrpc

namespace otlptrace

/-- Go *otlptrace.Exporter: an opaque handle. -/
structure Exporter where
  handle : Nat
deriving DecidableEq, Repr

end otlptrace

/-! ## Trace SDK -/

namespace sdktrace

/-- Go sdktrace.Sampler: the samplers the SDK offers. -/
inductive Sampler where
  | AlwaysSample
  | NeverSample
  | TraceIDRatioBased (upperBound : Nat)
  | ParentBased (root : Sampler)
deriving DecidableEq, Repr

/-- Go sdktrace.SamplingParameters: what a sampler may look at. -/
structure SamplingParameters where
  parent : Option SpanContext
  traceID : Nat
  name : String
deriving DecidableEq, Repr

/-- Modelled from the spec: the sampling decision (Sampler.ShouldSample of the SDK, absent
from src). Section 4.5 names the policy always-sample, under which every span is recorded;
the other samplers of the SDK are kept for contrast: always-off ignores its parameters too,
the ratio sampler compares half of the low 8 bytes of the trace id with its bound, the
parent-based one follows the parent when there is one. -/
def Sampler.ShouldSample : Sampler → SamplingParameters → Bool
  | AlwaysSample, _ => true
  | NeverSample, _ => false
  | TraceIDRatioBased bound, p => decide ((p.traceID % 2 ^ 64) / 2 < bound)
  | ParentBased root, p =>
    match p.parent with
    | some sc => sc.sampled
    | none => root.ShouldSample p

/-- The resource attached to every span of a provider. -/
inductive Resource where
  | default
  | attributes (schemaURL : String) (attrs : List (String × String))
deriving DecidableEq, Repr

/-- Go sdktrace.SpanProcessor: how ended spans reach an exporter. -/
inductive SpanProcessor where
  | batch (exp : otlptrace.Exporter)
  | simple (exp : otlptrace.Exporter)
deriving DecidableEq, Repr

/-- Go sdktrace.TracerProviderOption. -/
inductive TracerProviderOption where
  | WithBatcher (exp : otlptrace.Exporter)
  | WithSyncer (exp : otlptrace.Exporter)
  | WithSampler (s : Sampler)
  | WithResource (r : Resource)
deriving DecidableEq, Repr

/-- Go *sdktrace.TracerProvider: the configuration it was built with. -/
structure TracerProvider where
  processors : List SpanProcessor
  sampler : Sampler
  resource : Resource
deriving DecidableEq, Repr

/-- The configuration NewTracerProvider starts from: no processor, the parent-based
always-on sampler, the default resource. -/
def TracerProvider.defaults : TracerProvider :=
  ⟨[], Sampler.ParentBased Sampler.AlwaysSample, Resource.default⟩

/-- One provider option applied to a configuration. -/
def TracerProviderOption.apply (tp : TracerProvider) : TracerProviderOption → TracerProvider
  | WithBatcher exp => ⟨tp.processors ++ [SpanProcessor.batch exp], tp.sampler, tp.resource⟩
  | WithSyncer exp => ⟨tp.processors ++ [SpanProcessor.simple exp], tp.sampler, tp.resource⟩
  | WithSampler s => ⟨tp.processors, s, tp.resource⟩
  | WithResource r => ⟨tp.processors, tp.sampler, r⟩

/-- Go sdktrace.NewTracerProvider: the options are applied in order on top of the
defaults. -/
def NewTracerProvider (opts : List TracerProviderOption) : TracerProvider :=
  opts.foldl TracerProviderOption.apply TracerProvider.defaults

/-- An identifier not issued before: one more than the largest issued so far. -/
def freshID (st : TraceState) : Nat := st.minted.foldr max 0 + 1

/-- Modelled from the spec: StartSpan of section 4.2 (the SDK tracer, absent from src). If
the ambient context carries a SpanContext the new span takes its TraceID and has its SpanID
as parent; otherwise a fresh TraceID is minted and the span is a root. The context
returned carries the new span's SpanContext. The sampling flag is the decision of the
provider's sampler. -/
def TracerProvider.start (tp : TracerProvider) (st : TraceState) (ambient : Context)
    (name : String) : Context × Span × TraceState :=
  match ambient.span with
  | some parent =>
    let sid := freshID st
    let sc : SpanContext :=
      ⟨parent.traceID, sid, tp.sampler.ShouldSample ⟨some parent, parent.traceID, name⟩,
        parent.baggage⟩
    (⟨ambient.deadline, some sc⟩, ⟨name, sc, some parent.spanID⟩, ⟨sid :: st.minted⟩)
  | none =>
    let tid := freshID st
    let sid := tid + 1
    let sc : SpanContext := ⟨tid, sid, tp.sampler.ShouldSample ⟨none, tid, name⟩, []⟩
    (⟨ambient.deadline, some sc⟩, ⟨name, sc, none⟩, ⟨sid :: tid :: st.minted⟩)

/-- Go (*TracerProvider).Tracer: a named tracer of the provider. -/
def TracerProvider.Tracer (tp : TracerProvider) (name : String) : Tracer :=
  ⟨name, tp.start⟩

end sdktrace

/-! ## The exporter and the provider of the program -/

/-- Source: the option slice opts of newExporter (main.go 27-31). -/
def newExporter.opts : List otlptracegrpc.Option :=
  [otlptracegrpc.Option.WithInsecure,
   otlptracegrpc.Option.WithEndpoint "localhost:4317",
   otlptracegrpc.Option.WithTimeout (5 * time.Second)]

/-- What the program does not decide: the client defaults, the outcome of otlptrace.New,
the requests that arrive with the behaviour of their response writers, and whether
ListenAndServe ever returns (and with which error). -/
structure Env where
  grpcDefaults : otlptracegrpc.Config
  otlptraceNew : Context → otlptracegrpc.Client → Except String otlptrace.Exporter
  incoming : List (http.Request × (String → http.WriteResult))
  listenError : Option String

/-- Source: newExporter (main.go 22-35). -/
def newExporter (env : Env) (ctx : Context) : Except String otlptrace.Exporter :=
  -- client := otlptracegrpc.NewClient(opts...)
  let client := otlptracegrpc.NewClient env.grpcDefaults newExporter.opts
  -- return otlptrace.New(ctx, client)
  env.otlptraceNew ctx client

/-- Source: the options newTraceProvider passes (main.go 49-51); the resource option is
commented out in the source. -/
def newTraceProvider.opts (exp : otlptrace.Exporter) : List sdktrace.TracerProviderOption :=
  [sdktrace.TracerProviderOption.WithBatcher exp,
   sdktrace.TracerProviderOption.WithSampler sdktrace.Sampler.AlwaysSample]

/-- Source: newTraceProvider (main.go 37-53). -/
def newTraceProvider (exp : otlptrace.Exporter) : sdktrace.TracerProvider :=
  sdktrace.NewTracerProvider (newTraceProvider.opts exp)

/-! ## Context propagation -/

namespace propagation

/-- Go propagation.TextMapCarrier: a mapping from header names to values. -/
abbrev Carrier := List (String × String)

/-- Go TextMapCarrier.Get: the value stored under a key, if any. -/
def Carrier.Get (c : Carrier) (key : String) : Option String := List.lookup key c

/-- Go TextMapCarrier.Set: store a value under a key, replacing what was there. -/
def Carrier.Set (c : Carrier) (key value : String) : Carrier :=
  (key, value) :: c.filter (fun entry => entry.1 != key)

/-- The sixteen lower-case hexadecimal digits. -/
def hexDigits : List Char := "0123456789abcdef".data

/-- The digit of a value below sixteen. -/
def hexDigit (n : Nat) : Char := hexDigits.getD n '0'

/-- The value of a hexadecimal digit; none for any other character. -/
def hexValue (c : Char) : Option Nat :=
  if c ∈ hexDigits then some (hexDigits.indexOf c) else none

/-- Fixed-width big-endian hexadecimal text of a number. -/
def toHex : Nat → Nat → List Char
  | 0, _ => []
  | w + 1, n => toHex w (n / 16) ++ [hexDigit (n % 16)]

/-- One step of reading hexadecimal text, most significant digit first. -/
def hexStep (acc : Option Nat) (c : Char) : Option Nat :=
  match acc, hexValue c with
  | some a, some v => some (a * 16 + v)
  | _, _ => none

/-- The number written by a hexadecimal text; none when a character is not a digit. -/
def fromHex (s : List Char) : Option Nat := s.foldl hexStep (some 0)

/-- Modelled from the spec: the composite header value of section 6 (the traceparent header
of propagation.TraceContext, absent from src): a version prefix, the trace id as 16 bytes
of hex, the span id as 8 bytes of hex and a one-byte sampling flag. -/
def encodeTraceparent (sc : SpanContext) : List Char :=
  [ '0', '0', '-'] ++ (toHex 32 sc.traceID ++ ( '-' :: (toHex 16 sc.spanID ++
    ( '-' :: toHex 2 (if sc.sampled then 1 else 0)))))

/-- Modelled from the spec: parsing of the same fixed format (section 4.1); anything that is
not of this shape is treated as absent. -/
def decodeTraceparent (s : List Char) : Option (Nat × Nat × Bool) :=
  match s with
  | '0' :: '0' :: '-' :: rest =>
    match (rest.take 32, rest.drop 32) with
    | (tid, '-' :: rest2) =>
      match (rest2.take 16, rest2.drop 16) with
      | (sid, '-' :: flags) =>
        if tid.length = 32 ∧ sid.length = 16 ∧ flags.length = 2 then
          match fromHex tid, fromHex sid, fromHex flags with
          | some t, some i, some f => some (t, i, decide (f % 2 = 1))
          | _, _, _ => none
        else none
      | _ => none
    | _ => none
  | _ => none

/-- Pieces of a text between occurrences of a separator. -/
def splitOn (sep : Char) : List Char → List (List Char)
  | [] => [[]]
  | c :: cs =>
    if c = sep then [] :: splitOn sep cs
    else
      match splitOn sep cs with
      | [] => [[c]]
      | piece :: pieces => (c :: piece) :: pieces

/-- Pieces of text joined by a separator. -/
def joinWith (sep : Char) : List (List Char) → List Char
  | [] => []
  | [piece] => piece
  | piece :: next :: pieces => piece ++ sep :: joinWith sep (next :: pieces)

/-- The text before and after the first occurrence of a separator; none without one. -/
def splitFirst (sep : Char) : List Char → Option (List Char × List Char)
  | [] => none
  | c :: cs =>
    if c = sep then some ([], cs)
    else (splitFirst sep cs).map (fun p => (c :: p.1, p.2))

/-- One baggage member, key=value. -/
def encodeMember (kv : String × String) : List Char := kv.1.data ++ '=' :: kv.2.data

/-- Modelled from the spec: the baggage encoding of section 6 (the baggage header of
propagation.Baggage, absent from src), comma-separated key=value pairs. -/
def encodeBaggage (bag : List (String × String)) : List Char :=
  joinWith ',' (bag.map encodeMember)

/-- A member read back; none when there is no equals sign. -/
def decodeMember (m : List Char) : Option (String × String) :=
  (splitFirst '=' m).map (fun p => (String.mk p.1, String.mk p.2))

/-- All members read back, or none as soon as one is malformed. -/
def decodeMembers : List (List Char) → Option (List (String × String))
  | [] => some []
  | m :: ms =>
    match decodeMember m, decodeMembers ms with
    | some kv, some kvs => some (kv :: kvs)
    | _, _ => none

/-- Modelled from the spec: parsing of the baggage encoding; a malformed value is treated as
absent. -/
def decodeBaggage (s : List Char) : Option (List (String × String)) :=
  decodeMembers (splitOn ',' s)

/-- Go propagation.TextMapPropagator: Inject writes the context into a carrier, Extract
returns the context enriched with what the carrier holds. -/
structure TextMapPropagator where
  Inject : Context → Carrier → Carrier
  Extract : Context → Carrier → Context

/-- Modelled from the spec: the propagator of trace id, span id and sampling flag
(propagation.TraceContext, absent from src; sections 4.1 and 6). -/
def TraceContext : TextMapPropagator where
  Inject := fun ctx carrier =>
    match ctx.span with
    | some sc => carrier.Set "traceparent" (String.mk (encodeTraceparent sc))
    | none => carrier
  Extract := fun ctx carrier =>
    match (carrier.Get "traceparent").bind (fun v => decodeTraceparent v.data) with
    | some (t, i, f) => ⟨ctx.deadline, some ⟨t, i, f, []⟩⟩
    | none => ctx

/-- Modelled from the spec: the propagator of the optional baggage (propagation.Baggage,
absent from src; sections 4.1 and 6). Baggage is a component of the SpanContext
(section 3), so it is attached to the span context extracted before it. -/
def Baggage : TextMapPropagator where
  Inject := fun ctx carrier =>
    match ctx.span with
    | some sc =>
      if sc.baggage = [] then carrier
      else carrier.Set "baggage" (String.mk (encodeBaggage sc.baggage))
    | none => carrier
  Extract := fun ctx carrier =>
    match ctx.span, (carrier.Get "baggage").bind (fun v => decodeBaggage v.data) with
    | some sc, some bag => ⟨ctx.deadline, some ⟨sc.traceID, sc.spanID, sc.sampled, bag⟩⟩
    | _, _ => ctx

/-- Go propagation.NewCompositeTextMapPropagator: Inject and Extract run the given
propagators in the order given. -/
def NewCompositeTextMapPropagator (parts : List TextMapPropagator) : TextMapPropagator where
  Inject := fun ctx carrier => parts.foldl (fun c p => p.Inject ctx c) carrier
  Extract := fun ctx carrier => parts.foldl (fun cx p => p.Extract cx carrier) ctx

end propagation

/-! ## The process: globals, routes, log -/

/-- The handlers the program builds: http.HandlerFunc(httpHandler) and otelhttp wrappers
around it. -/
inductive HandlerRef where
  | handlerFunc
  | otelhttpHandler (operation : String) (next : HandlerRef)
deriving DecidableEq, Repr

/-- An entry of http.DefaultServeMux. -/
structure Route where
  pattern : String
  handler : HandlerRef
deriving DecidableEq, Repr

/-- The calls of main that are visible from outside, in the order they are made. -/
inductive Event where
  | otlptraceNew (ctx : Context) (client : otlptracegrpc.Client)
  | fatalf (message : String)
  | newTracerProvider (tp : sdktrace.TracerProvider)
  | assignTr (tracerName : String)
  | deferShutdown (ctx : Context)
  | setTracerProvider (tp : sdktrace.TracerProvider)
  | setTextMapPropagator (parts : List String)
  | handle (pattern : String) (handler : HandlerRef)
  | listenAndServe (addr : String)
  | tpShutdown (ctx : Context)
deriving DecidableEq, Repr

/-- One request served: the request, the pattern it was routed to, what the handler did and
how it finished. -/
structure Exchange where
  request : http.Request
  pattern : Option String
  effects : List Effect
  status : Status
deriving DecidableEq, Repr

/-- The state of the process: the package-level variable tr, the globals of the otel package
(no provider registered means the default no-op one), the default serve mux, the tracing
state, the log of calls and the requests served. -/
structure Proc where
  tr : Option Tracer
  tracerProvider : Option sdktrace.TracerProvider
  propagator : propagation.TextMapPropagator
  mux : List Route
  st : TraceState
  log : List Event
  served : List Exchange

/-- The process at the entry of main: tr is nil, the otel globals are the no-op defaults,
nothing is registered. -/
def Proc.initial : Proc :=
  ⟨none, none, propagation.NewCompositeTextMapPropagator [], [], ⟨[]⟩, [], []⟩

/-- A call recorded in the log. -/
def Proc.record (p : Proc) (e : Event) : Proc := { p with log := p.log ++ [e] }

namespace otel

/-- Start of the no-op tracer that the otel globals hand out while no provider is
registered: the context is returned as it is and the span records nothing. -/
def noopStart (st : TraceState) (ambient : Context) (name : String) :
    Context × Span × TraceState :=
  (ambient, ⟨name, ambient.span.getD ⟨0, 0, false, []⟩, none⟩, st)

/-- Go otel.GetTracerProvider().Tracer(name). -/
def Tracer (p : Proc) (name : String) : OtelSample.Tracer :=
  match p.tracerProvider with
  | some tp => tp.Tracer name
  | none => ⟨name, noopStart⟩

/-- Go otel.SetTracerProvider. -/
def SetTracerProvider (p : Proc) (tp : sdktrace.TracerProvider) : Proc :=
  { p with tracerProvider := some tp }

/-- Go otel.SetTextMapPropagator. -/
def SetTextMapPropagator (p : Proc) (prop : propagation.TextMapPropagator) : Proc :=
  { p with propagator := prop }

end otel

namespace otelhttp

/-- The instrumentation name under which otelhttp asks for its tracer. -/
def tracerName : String := "go.opentelemetry.io/contrib/instrumentation/net/http/otelhttp"

/-- Modelled from the spec: the instrumentation middleware of section 4.6 (the handler built
by otelhttp.NewHandler, absent from src). On each request it extracts the propagated context,
starts a span named for the operation, calls the wrapped handler with the request carrying
the derived context, and ends the span when the handler returns, also on panic. -/
def serve (prop : propagation.TextMapPropagator) (t : OtelSample.Tracer) (operation : String)
    (next : Handler) : Handler := fun st w r =>
  let ambient := prop.Extract r.Context r.header
  let started := t.Start st ambient operation
  let ctx := started.1
  let span := started.2.1
  let f0 : Frame HandlerState :=
    Frame.enter ⟨w, r, started.2.2, [Effect.spanStart ambient operation span]⟩
  let f1 := f0.defer (fun s => ⟨s.w, s.r, s.st, s.effects ++ [Effect.spanEnd span]⟩)
  let f2 := f1.stmt (fun s =>
    (⟨(next s.st s.w (s.r.WithContext ctx)).1.w, s.r, (next s.st s.w (s.r.WithContext ctx)).1.st,
        s.effects ++ (next s.st s.w (s.r.WithContext ctx)).1.effects⟩,
      (next s.st s.w (s.r.WithContext ctx)).2))
  f2.leave

/-- Go otelhttp.NewHandler(handler, operation). -/
def NewHandler (handler : HandlerRef) (operation : String) : HandlerRef :=
  HandlerRef.otelhttpHandler operation handler

end otelhttp

/-- What a registered handler does when the server calls it: httpHandler reads the
package-level tr, the otelhttp wrapper reads the otel globals. -/
def HandlerRef.toHandler (p : Proc) : HandlerRef → Handler
  | HandlerRef.handlerFunc => httpHandler p.tr
  | HandlerRef.otelhttpHandler operation next =>
    otelhttp.serve p.propagator (otel.Tracer p otelhttp.tracerName) operation (next.toHandler p)

namespace http

/-- Go http.Handle on the default serve mux: registers the handler for the pattern; an
empty pattern or a second registration of a pattern panics. -/
def Handle (p : Proc) (pattern : String) (handler : HandlerRef) : Proc × Status :=
  if pattern = "" then (p, Status.panicking "http: invalid pattern")
  else if pattern ∈ p.mux.map Route.pattern then
    (p, Status.panicking ("http: multiple registrations for " ++ pattern))
  else (({ p with mux := p.mux ++ [Route.mk pattern handler] }).record (Event.handle pattern handler),
    Status.running)

/-- Whether a pattern of the serve mux covers a path: a pattern names one path, or a
subtree when it ends in a slash. -/
def covers (pattern path : String) : Bool :=
  pattern == path || (pattern.data.getLast? == some '/' && pattern.data.isPrefixOf path.data)

/-- The route the serve mux picks for a path: among the patterns that cover it, the
longest. -/
def route (mux : List Route) (path : String) : Option Route :=
  (mux.filter (fun rt => covers rt.pattern path)).foldl
    (fun best rt =>
      match best with
      | none => some rt
      | some b => if b.pattern.length < rt.pattern.length then some rt else some b)
    none

/-- One request served by the server with the default serve mux: routed to its handler, or
answered by the not-found handler. A panic of the handler is recovered by the server. -/
def serveRequest (p : Proc) (incoming : Request × (String → WriteResult)) : Proc :=
  match route p.mux incoming.1.path with
  | some rt =>
    let run := rt.handler.toHandler p p.st ⟨[], incoming.2⟩ incoming.1
    { p with st := run.1.st,
             served := p.served ++ [⟨incoming.1, some rt.pattern, run.1.effects, run.2⟩] }
  | none =>
    { p with served := p.served ++
        [⟨incoming.1, none, [Effect.write "404 page not found\n"], Status.running⟩] }

/-- Go http.ListenAndServe(addr, nil): serves the incoming requests with the default serve
mux; it returns only with an error, and blocks otherwise. -/
def ListenAndServe (env : Env) (addr : String) (p : Proc) : Proc × Status :=
  (env.incoming.foldl serveRequest (p.record (Event.listenAndServe addr)),
    match env.listenError with
    | some _ => Status.running
    | none => Status.blocked)

end http

/-! ## The program -/

/-- Source: wrapHandler (main.go 65-69). -/
def wrapHandler (p : Proc) : Proc × Status :=
  -- handler := http.HandlerFunc(httpHandler)
  let handler := HandlerRef.handlerFunc
  -- wrappedHandler := otelhttp.NewHandler(handler, "hello")
  let wrappedHandler := otelhttp.NewHandler handler "hello"
  -- http.Handle("/hello", wrappedHandler)
  http.Handle p "/hello" wrappedHandler

/-- Source: the propagator main registers (main.go 91-96). -/
def main.propagator : propagation.TextMapPropagator :=
  propagation.NewCompositeTextMapPropagator [propagation.TraceContext, propagation.Baggage]

/-- Source: main (main.go 71-102). -/
def main (env : Env) : Proc × Status :=
  -- ctx := context.Background()
  let ctx := context.Background
  -- exp, err := newExporter(ctx)
  let f0 : Frame Proc := (Frame.enter Proc.initial).stmt (fun p =>
    (p.record (Event.otlptraceNew ctx (otlptracegrpc.NewClient env.grpcDefaults newExporter.opts)),
      Status.running))
  match newExporter env ctx with
  | Except.error err =>
    -- log.Fatalf("failed to initialize exporter: %v", err): logs, then os.Exit(1)
    (f0.stmt (fun p =>
      (p.record (Event.fatalf ("failed to initialize exporter: " ++ err)), Status.exited 1))).leave
  | Except.ok exp =>
    -- tp := newTraceProvider(exp)
    let tp := newTraceProvider exp
    let f1 := f0.stmt (fun p => (p.record (Event.newTracerProvider tp), Status.running))
    -- tr = tp.Tracer("otel/grpc")
    let f2 := f1.stmt (fun p =>
      (({ p with tr := some (tp.Tracer "otel/grpc") }).record (Event.assignTr "otel/grpc"),
        Status.running))
    -- defer func() { _ = tp.Shutdown(ctx) }()
    let f3 := (f2.stmt (fun p => (p.record (Event.deferShutdown ctx), Status.running))).defer
      (fun p => p.record (Event.tpShutdown ctx))
    -- otel.SetTracerProvider(tp)
    let f4 := f3.stmt (fun p =>
      ((otel.SetTracerProvider p tp).record (Event.setTracerProvider tp), Status.running))
    -- otel.SetTextMapPropagator(propagation.NewCompositeTextMapPropagator(...))
    let f5 := f4.stmt (fun p =>
      ((otel.SetTextMapPropagator p main.propagator).record
        (Event.setTextMapPropagator ["TraceContext", "Baggage"]), Status.running))
    -- wrapHandler()
    let f6 := f5.stmt wrapHandler
    -- http.ListenAndServe(":8080", nil)
    let f7 := f6.stmt (http.ListenAndServe env ":8080")
    f7.leave

/-- The events of a run of main up to and including the call of ListenAndServe, for an
exporter that was built. -/
def main.startupLog (env : Env) (exp : otlptrace.Exporter) : List Event :=
  [Event.otlptraceNew context.Background
      (otlptracegrpc.NewClient env.grpcDefaults newExporter.opts),
   Event.newTracerProvider (newTraceProvider exp),
   Event.assignTr "otel/grpc",
   Event.deferShutdown context.Background,
   Event.setTracerProvider (newTraceProvider exp),
   Event.setTextMapPropagator ["TraceContext", "Baggage"],
   Event.handle "/hello" (HandlerRef.otelhttpHandler "hello" HandlerRef.handlerFunc),
   Event.listenAndServe ":8080"]

/-- The process state in which the server takes its first request, for an exporter that was
built. -/
def main.ready (env : Env) (exp : otlptrace.Exporter) : Proc :=
  ⟨some ((newTraceProvider exp).Tracer "otel/grpc"), some (newTraceProvider exp),
    main.propagator, [⟨"/hello", HandlerRef.otelhttpHandler "hello" HandlerRef.handlerFunc⟩],
    ⟨[]⟩, main.startupLog env exp, []⟩

/-- The two spans of one exchange form a parent chain in call order within one trace: the
middleware span hello is started first, the span teste is started from the context derived
from hello, has the span id of hello as parent and the trace id of hello, and is ended
before hello. -/
def Exchange.chained (x : Exchange) : Prop :=
  ∃ (ambient derived : Context) (hello teste : Span),
    x.effects
        = [Effect.spanStart ambient "hello" hello, Effect.spanStart derived "teste" teste,
           Effect.write "Hello, World", Effect.spanEnd teste, Effect.spanEnd hello] ∧
      derived.span = some hello.context ∧
      hello.name = "hello" ∧
      teste.name = "teste" ∧
      teste.parentSpanID = some hello.context.spanID ∧
      teste.context.traceID = hello.context.traceID ∧
      teste.context.spanID ≠ hello.context.spanID

/-- A valid SpanContext: the trace id is a non-zero value of 16 bytes and the span id a
non-zero value of 8 bytes (as SpanContext.IsValid of the tracing API asks), and the
baggage can be written as comma-separated key=value pairs, that is no key contains a comma
or an equals sign and no value a comma. -/
def SpanContext.valid (sc : SpanContext) : Prop :=
  (0 < sc.traceID ∧ sc.traceID < 2 ^ 128) ∧ (0 < sc.spanID ∧ sc.spanID < 2 ^ 64) ∧
    ∀ kv ∈ sc.baggage, ',' ∉ kv.1.data ∧ '=' ∉ kv.1.data ∧ ',' ∉ kv.2.data

/-! ## Sample runs -/

/-- A run in which the collector is reachable, three requests arrive (one not routed, one
whose writer panics, one carrying a propagated context) and the server stops at last. -/
def sampleEnv : Env where
  grpcDefaults := ⟨"localhost:4317", false, 10 * time.Second, [], ""⟩
  otlptraceNew := fun _ _ => Except.ok ⟨1⟩
  incoming :=
    [(⟨"GET", "/hello", [], "", context.Background⟩, fun _ => http.WriteResult.ok),
     (⟨"GET", "/other", [], "", context.Background⟩, fun _ => http.WriteResult.ok),
     (⟨"POST", "/hello", [("traceparent", "00-000000000000000000000000000000aa-00000000000000bb-01")],
        "x", context.Background⟩, fun _ => http.WriteResult.panics "broken pipe")]
  listenError := some "accept: closed"

/-- A run in which the exporter cannot be built. -/
def failingEnv : Env where
  grpcDefaults := ⟨"localhost:4317", false, 10 * time.Second, [], ""⟩
  otlptraceNew := fun _ _ => Except.error "connection refused"
  incoming := [(⟨"GET", "/hello", [], "", context.Background⟩, fun _ => http.WriteResult.ok)]
  listenError := none

/-! ## Theorems -/

section Transport

/-- C9: for every context, newExporter builds the gRPC client from exactly the three options
insecure, endpoint localhost:4317 and timeout 5 s, passes no header option, and returns what
otlptrace.New returns for that context and client, unchanged; the options depend on nothing. -/
theorem newExporter_fixed_transport (env : Env) (ctx : Context) :
    newExporter env ctx
        = env.otlptraceNew ctx (otlptracegrpc.NewClient env.grpcDefaults newExporter.opts) ∧
      newExporter.opts
        = [otlptracegrpc.Option.WithInsecure,
           otlptracegrpc.Option.WithEndpoint "localhost:4317",
           otlptracegrpc.Option.WithTimeout 5000000000] ∧
      (∀ h, otlptracegrpc.Option.WithHeaders h ∉ newExporter.opts) ∧
      (otlptracegrpc.NewClient env.grpcDefaults newExporter.opts).cfg
        = ⟨"localhost:4317", true, 5 * time.Second, env.grpcDefaults.headers,
            env.grpcDefaults.compressor⟩ := by
  refine ⟨rfl, rfl, ?_, rfl⟩
  intro h hmem
  simp [newExporter.opts] at hmem

end Transport

section Sampling

/-- C5: for every exporter, the provider of newTraceProvider has the always-sample sampler,
one span processor, a batching one that feeds that exporter, and the default resource; the
two options passed are the only ones; the sampling decision is the same for every trace id,
parent and span name, and every span a tracer of the provider starts is sampled. -/
theorem newTraceProvider_always_samples (exp : otlptrace.Exporter) :
    (newTraceProvider exp).sampler = sdktrace.Sampler.AlwaysSample ∧
      (newTraceProvider exp).processors = [sdktrace.SpanProcessor.batch exp] ∧
      (newTraceProvider exp).resource = sdktrace.Resource.default ∧
      (∀ o ∈ newTraceProvider.opts exp,
        o = sdktrace.TracerProviderOption.WithBatcher exp ∨
        o = sdktrace.TracerProviderOption.WithSampler sdktrace.Sampler.AlwaysSample) ∧
      (∀ params, (newTraceProvider exp).sampler.ShouldSample params = true) ∧
      (∀ tracerName st ambient spanName,
        (((newTraceProvider exp).Tracer tracerName).Start st ambient spanName).2.1.context.sampled
          = true) := by
  refine ⟨rfl, rfl, rfl, ?_, fun _ => rfl, ?_⟩
  · intro o ho
    simpa [newTraceProvider.opts] using ho
  · intro tracerName st ambient spanName
    cases hspan : ambient.span <;>
      simp [sdktrace.TracerProvider.Tracer, sdktrace.TracerProvider.start, hspan,
        newTraceProvider, newTraceProvider.opts, sdktrace.NewTracerProvider,
        sdktrace.TracerProviderOption.apply, sdktrace.Sampler.ShouldSample]

end Sampling

section HandlerBody

/-- What one invocation of httpHandler with a tracer in tr comes to: the three calls in
order, the writer with the literal appended, the request variable untouched. -/
theorem httpHandler_run (t : Tracer) (st : TraceState) (w : http.ResponseWriter)
    (r : http.Request) :
    httpHandler (some t) st w r
      = (⟨⟨w.body ++ ["Hello, World"], w.onWrite⟩, r, (t.Start st r.Context "teste").2.2,
          [Effect.spanStart r.Context "teste" (t.Start st r.Context "teste").2.1,
           Effect.write "Hello, World",
           Effect.spanEnd (t.Start st r.Context "teste").2.1]⟩,
         match w.onWrite "Hello, World" with
         | http.WriteResult.panics v => Status.panicking v
         | _ => Status.running) := by
  cases hw : w.onWrite "Hello, World" <;>
    simp [httpHandler, Frame.enter, Frame.defer, Frame.stmt, Frame.leave,
      http.ResponseWriter.Write, hw]

/-- C7: in every invocation of httpHandler the span it starts is ended exactly once, End is
the last call and comes after the Write of the body, and this is so as well when the Write
panics (the handler then leaves panicking, with End run by the defer); with no tracer in
tr no span is started and none is ended. -/
theorem httpHandler_ends_span_once (t : Tracer) (st : TraceState) (w : http.ResponseWriter)
    (r : http.Request) :
    (httpHandler (some t) st w r).1.effects
        = [Effect.spanStart r.Context "teste" (t.Start st r.Context "teste").2.1,
           Effect.write "Hello, World",
           Effect.spanEnd (t.Start st r.Context "teste").2.1] ∧
      (httpHandler (some t) st w r).1.effects.count
          (Effect.spanEnd (t.Start st r.Context "teste").2.1) = 1 ∧
      (∀ v, w.onWrite "Hello, World" = http.WriteResult.panics v →
        (httpHandler (some t) st w r).2 = Status.panicking v ∧
        (httpHandler (some t) st w r).1.effects.getLast?
          = some (Effect.spanEnd (t.Start st r.Context "teste").2.1)) ∧
      (httpHandler none st w r).1.effects = [] := by
  refine ⟨by simp [httpHandler_run], by simp [httpHandler_run, List.count_cons], ?_, rfl⟩
  intro v hv
  simp [httpHandler_run, hv]

/-- C3 (what the code does): whatever the tracer, the request variable of httpHandler is,
after the call r.WithContext(ctx), the request it was before, so its context is the one the
request came with; for a request with the background context and a tracer of the program's
provider, that context differs from the derived context Start returned, which carries the
span teste. -/
theorem httpHandler_drops_derived_context :
    (∀ (t : Tracer) (st : TraceState) (w : http.ResponseWriter) (r : http.Request),
        (httpHandler (some t) st w r).1.r = r ∧
        (httpHandler (some t) st w r).1.r.Context = r.Context) ∧
      (((newTraceProvider ⟨1⟩).Tracer "otel/grpc").Start ⟨[]⟩ context.Background "teste").1
        ≠ (httpHandler (some ((newTraceProvider ⟨1⟩).Tracer "otel/grpc")) ⟨[]⟩
            ⟨[], fun _ => http.WriteResult.ok⟩
            ⟨"GET", "/hello", [], "", context.Background⟩).1.r.Context ∧
      (((newTraceProvider ⟨1⟩).Tracer "otel/grpc").Start ⟨[]⟩ context.Background "teste").1.span
        = some ⟨1, 2, true, []⟩ ∧
      (httpHandler (some ((newTraceProvider ⟨1⟩).Tracer "otel/grpc")) ⟨[]⟩
            ⟨[], fun _ => http.WriteResult.ok⟩
            ⟨"GET", "/hello", [], "", context.Background⟩).1.r.Context.span = none := by
  refine ⟨fun t st w r => by simp [httpHandler_run], ?_, by decide, ?_⟩
  · simp only [httpHandler_run]
    decide
  · simp only [httpHandler_run]
    decide

end HandlerBody

section Startup

/-- Serving a request changes neither the globals nor the routes nor the log. -/
theorem serveRequest_globals (p : Proc) (incoming : http.Request × (String → http.WriteResult)) :
    (http.serveRequest p incoming).tr = p.tr ∧
      (http.serveRequest p incoming).tracerProvider = p.tracerProvider ∧
      (http.serveRequest p incoming).propagator = p.propagator ∧
      (http.serveRequest p incoming).mux = p.mux ∧
      (http.serveRequest p incoming).log = p.log := by
  unfold http.serveRequest
  split <;> simp

/-- Serving any number of requests changes neither the globals nor the routes nor the log. -/
theorem serveAll_globals (incoming : List (http.Request × (String → http.WriteResult)))
    (p : Proc) :
    (incoming.foldl http.serveRequest p).tr = p.tr ∧
      (incoming.foldl http.serveRequest p).tracerProvider = p.tracerProvider ∧
      (incoming.foldl http.serveRequest p).propagator = p.propagator ∧
      (incoming.foldl http.serveRequest p).mux = p.mux ∧
      (incoming.foldl http.serveRequest p).log = p.log := by
  induction incoming generalizing p with
  | nil => simp
  | cons x xs ih =>
    obtain ⟨h1, h2, h3, h4, h5⟩ := ih (http.serveRequest p x)
    obtain ⟨g1, g2, g3, g4, g5⟩ := serveRequest_globals p x
    simp only [List.foldl_cons]
    exact ⟨h1.trans g1, h2.trans g2, h3.trans g3, h4.trans g4, h5.trans g5⟩

/-- A run of main whose exporter cannot be built: the log, the exit. -/
theorem main_of_error (env : Env) (err : String)
    (h : newExporter env context.Background = Except.error err) :
    main env
      = (⟨none, none, propagation.NewCompositeTextMapPropagator [], [], ⟨[]⟩,
          [Event.otlptraceNew context.Background
              (otlptracegrpc.NewClient env.grpcDefaults newExporter.opts),
           Event.fatalf ("failed to initialize exporter: " ++ err)], []⟩,
         Status.exited 1) := by
  unfold main
  simp only [h]
  rfl

/-- A run of main whose exporter is built: the server serves from the ready state, and the
deferred Shutdown runs if ListenAndServe returns. -/
theorem main_of_ok (env : Env) (exp : otlptrace.Exporter)
    (h : newExporter env context.Background = Except.ok exp) :
    main env
      = match env.listenError with
        | some _ =>
          ((env.incoming.foldl http.serveRequest (main.ready env exp)).record
            (Event.tpShutdown context.Background), Status.running)
        | none => (env.incoming.foldl http.serveRequest (main.ready env exp), Status.blocked) := by
  unfold main
  simp only [h]
  cases hl : env.listenError <;>
    simp [Frame.enter, Frame.stmt, Frame.defer, Frame.leave, wrapHandler, http.Handle,
      http.ListenAndServe, otelhttp.NewHandler, Proc.record, Proc.initial,
      otel.SetTracerProvider, otel.SetTextMapPropagator, main.ready, main.startupLog, hl]

/-- Every incoming request is served: one exchange is recorded for each. -/
theorem serveAll_length (incoming : List (http.Request × (String → http.WriteResult)))
    (p : Proc) :
    (incoming.foldl http.serveRequest p).served.length = p.served.length + incoming.length := by
  induction incoming generalizing p with
  | nil => simp
  | cons x xs ih =>
    have hx : (http.serveRequest p x).served.length = p.served.length + 1 := by
      unfold http.serveRequest
      split <;> simp
    simp only [List.foldl_cons, List.length_cons, ih, hx]
    omega

/-- The log of a run of main whose exporter is built: the start-up events, then the
Shutdown call if ListenAndServe returns. -/
theorem main_log_of_ok (env : Env) (exp : otlptrace.Exporter)
    (h : newExporter env context.Background = Except.ok exp) :
    (main env).1.log
      = main.startupLog env exp ++
        (match env.listenError with
         | some _ => [Event.tpShutdown context.Background]
         | none => []) := by
  rw [main_of_ok env exp h]
  have hlog := (serveAll_globals env.incoming (main.ready env exp)).2.2.2.2
  cases env.listenError
  · simp only [hlog, List.append_nil]
    rfl
  · simp only [Proc.record, hlog]
    rfl

/-- C1: if newExporter returns an error, main logs it with Fatalf and the process exits
with no tracer provider built, no route registered, ListenAndServe not called and nothing
served; if newExporter returns an exporter, main registers the route, calls ListenAndServe
and every incoming request is served; so ListenAndServe is called exactly when the exporter
was built. -/
theorem main_serves_iff_exporter (env : Env) :
    (∀ err, newExporter env context.Background = Except.error err →
        (main env).2 = Status.exited 1 ∧
        (main env).1.log
          = [Event.otlptraceNew context.Background
                (otlptracegrpc.NewClient env.grpcDefaults newExporter.opts),
             Event.fatalf ("failed to initialize exporter: " ++ err)] ∧
        (main env).1.tracerProvider = none ∧
        (main env).1.mux = [] ∧
        (main env).1.served = []) ∧
      (∀ exp, newExporter env context.Background = Except.ok exp →
        Event.newTracerProvider (newTraceProvider exp) ∈ (main env).1.log ∧
        Event.handle "/hello" (HandlerRef.otelhttpHandler "hello" HandlerRef.handlerFunc)
          ∈ (main env).1.log ∧
        Event.listenAndServe ":8080" ∈ (main env).1.log ∧
        (main env).1.mux
          = [⟨"/hello", HandlerRef.otelhttpHandler "hello" HandlerRef.handlerFunc⟩] ∧
        (main env).1.served.length = env.incoming.length) ∧
      ((∃ addr, Event.listenAndServe addr ∈ (main env).1.log) ↔
        ∃ exp, newExporter env context.Background = Except.ok exp) := by
  refine ⟨?_, ?_, ?_⟩
  · intro err h
    rw [main_of_error env err h]
    exact ⟨rfl, rfl, rfl, rfl, rfl⟩
  · intro exp h
    refine ⟨?_, ?_, ?_, ?_, ?_⟩
    · rw [main_log_of_ok env exp h]; simp [main.startupLog]
    · rw [main_log_of_ok env exp h]; simp [main.startupLog]
    · rw [main_log_of_ok env exp h]; simp [main.startupLog]
    · rw [main_of_ok env exp h]
      have hmux := (serveAll_globals env.incoming (main.ready env exp)).2.2.2.1
      cases env.listenError
      · simp only [hmux]
        rfl
      · simp only [Proc.record, hmux]
        rfl
    · rw [main_of_ok env exp h]
      cases env.listenError <;> simp [Proc.record, serveAll_length, main.ready]
  · constructor
    · rintro ⟨addr, haddr⟩
      cases h : newExporter env context.Background with
      | error err =>
        rw [main_of_error env err h] at haddr
        simp at haddr
      | ok exp => exact ⟨exp, rfl⟩
    · rintro ⟨exp, h⟩
      refine ⟨":8080", ?_⟩
      rw [main_log_of_ok env exp h]
      simp [main.startupLog]

set_option maxRecDepth 100000 in
/-- C1, at the two sample runs: the failing one exits with status 1 after Fatalf, the other
one serves its three requests. -/
theorem main_serves_iff_exporter_sample :
    ((main failingEnv).2 = Status.exited 1 ∧
        (main failingEnv).1.log
          = [Event.otlptraceNew context.Background
                (otlptracegrpc.NewClient failingEnv.grpcDefaults newExporter.opts),
             Event.fatalf ("failed to initialize exporter: " ++ "connection refused")] ∧
        (main failingEnv).1.tracerProvider = none ∧
        (main failingEnv).1.mux = [] ∧
        (main failingEnv).1.served = []) ∧
      (main sampleEnv).1.served.length = 3 :=
  ⟨(main_serves_iff_exporter failingEnv).1 "connection refused" rfl,
    ((main_serves_iff_exporter sampleEnv).2.1 ⟨1⟩ rfl).2.2.2.2⟩

end Startup

section Shutdown

set_option maxRecDepth 100000 in
/-- C2 as stated fails: in the sample run main calls Shutdown, and the context it passes has
no deadline. -/
theorem main_shutdown_has_no_deadline :
    ¬ (∀ ctx, Event.tpShutdown ctx ∈ (main sampleEnv).1.log → ctx.deadline ≠ none) := by
  intro h
  exact h context.Background (by decide) rfl

/-- C2 as amended: every Shutdown call of main is made with the background context created at
the start of main, the one given to newExporter, and that context carries no deadline; when
the exporter was built and ListenAndServe returns, Shutdown is the last call of main and is
made once; on the other runs it is not made. -/
theorem main_shutdown_background (env : Env) :
    (∀ ctx, Event.tpShutdown ctx ∈ (main env).1.log →
        ctx = context.Background ∧ ctx.deadline = none ∧
        ∃ client, Event.otlptraceNew ctx client ∈ (main env).1.log) ∧
      (∀ exp err, newExporter env context.Background = Except.ok exp →
        env.listenError = some err →
        (main env).1.log.getLast? = some (Event.tpShutdown context.Background) ∧
        (main env).1.log.count (Event.tpShutdown context.Background) = 1) ∧
      ((∀ exp, newExporter env context.Background ≠ Except.ok exp) ∨ env.listenError = none →
        ∀ ctx, Event.tpShutdown ctx ∉ (main env).1.log) := by
  cases h : newExporter env context.Background with
  | error err =>
    have hmain := main_of_error env err h
    refine ⟨?_, ?_, ?_⟩
    · intro ctx hctx
      rw [hmain] at hctx
      simp at hctx
    · intro exp err' hexp
      cases hexp
    · intro _ ctx hctx
      rw [hmain] at hctx
      simp at hctx
  | ok exp =>
    have hlog := main_log_of_ok env exp h
    refine ⟨?_, ?_, ?_⟩
    · intro ctx hctx
      rw [hlog] at hctx ⊢
      cases hl : env.listenError with
      | none => simp [hl, main.startupLog] at hctx
      | some e =>
        simp [hl, main.startupLog] at hctx
        subst hctx
        exact ⟨rfl, rfl, otlptracegrpc.NewClient env.grpcDefaults newExporter.opts,
          by simp [main.startupLog]⟩
    · intro exp' err hexp hl
      rw [hlog, hl]
      constructor
      · simp
      · simp [main.startupLog, List.count_cons]
    · intro hor ctx hctx
      rcases hor with hne | hl
      · exact hne exp rfl
      · rw [hlog, hl] at hctx
        simp [main.startupLog] at hctx

set_option maxRecDepth 100000 in
/-- C2 as amended, at the sample run: Shutdown is the last call and is made once. -/
theorem main_shutdown_background_sample :
    (main sampleEnv).1.log.getLast? = some (Event.tpShutdown context.Background) ∧
      (main sampleEnv).1.log.count (Event.tpShutdown context.Background) = 1 :=
  (main_shutdown_background sampleEnv).2.1 ⟨1⟩ "accept: closed" rfl rfl

end Shutdown

section ParentLinking

/-- No identifier issued so far exceeds the largest one. -/
theorem le_foldr_max (l : List Nat) (x : Nat) (hx : x ∈ l) : x ≤ l.foldr max 0 := by
  induction l with
  | nil => cases hx
  | cons y ys ih =>
    simp only [List.foldr_cons]
    rcases List.mem_cons.mp hx with h | h
    · subst h
      exact le_max_left _ _
    · exact le_trans (ih h) (le_max_right _ _)

/-- A fresh identifier was not issued before. -/
theorem freshID_not_minted (st : TraceState) : sdktrace.freshID st ∉ st.minted := by
  intro h
  have := le_foldr_max st.minted _ h
  unfold sdktrace.freshID at this
  omega

/-- The context Start returns carries the SpanContext of the span it returns. -/
theorem start_derived (tp : sdktrace.TracerProvider) (st : TraceState) (ambient : Context)
    (name : String) :
    (tp.start st ambient name).1.span = some (tp.start st ambient name).2.1.context := by
  unfold sdktrace.TracerProvider.start
  cases ambient.span <;> rfl

/-- The span Start returns has the name asked for, and its span id is issued. -/
theorem start_name_minted (tp : sdktrace.TracerProvider) (st : TraceState) (ambient : Context)
    (name : String) :
    (tp.start st ambient name).2.1.name = name ∧
      (tp.start st ambient name).2.1.context.spanID ∈ (tp.start st ambient name).2.2.minted := by
  unfold sdktrace.TracerProvider.start
  cases ambient.span <;> simp

/-- Start from a context that carries a SpanContext: the new span is its child. -/
theorem start_child (tp : sdktrace.TracerProvider) (st : TraceState) (ambient : Context)
    (name : String) (parent : SpanContext) (h : ambient.span = some parent) :
    (tp.start st ambient name).2.1.parentSpanID = some parent.spanID ∧
      (tp.start st ambient name).2.1.context.traceID = parent.traceID ∧
      (tp.start st ambient name).2.1.context.spanID = sdktrace.freshID st := by
  unfold sdktrace.TracerProvider.start
  simp [h]

/-- Start from a context that carries no SpanContext: the new span is a root with a trace id
not issued before. -/
theorem start_root (tp : sdktrace.TracerProvider) (st : TraceState) (ambient : Context)
    (name : String) (h : ambient.span = none) :
    (tp.start st ambient name).2.1.parentSpanID = none ∧
      (tp.start st ambient name).2.1.context.traceID ∉ st.minted := by
  unfold sdktrace.TracerProvider.start
  simp [h, freshID_not_minted]

/-- What one request comes to in the wrapped handler, for any propagator and tracers: the
middleware span around the three calls of httpHandler. -/
theorem wrapped_run (prop : propagation.TextMapPropagator) (tm t : Tracer) (st : TraceState)
    (w : http.ResponseWriter) (r : http.Request) :
    otelhttp.serve prop tm "hello" (httpHandler (some t)) st w r
      = (⟨⟨w.body ++ ["Hello, World"], w.onWrite⟩, r,
          (t.Start (tm.Start st (prop.Extract r.Context r.header) "hello").2.2
            (tm.Start st (prop.Extract r.Context r.header) "hello").1 "teste").2.2,
          [Effect.spanStart (prop.Extract r.Context r.header) "hello"
              (tm.Start st (prop.Extract r.Context r.header) "hello").2.1,
           Effect.spanStart (tm.Start st (prop.Extract r.Context r.header) "hello").1 "teste"
              (t.Start (tm.Start st (prop.Extract r.Context r.header) "hello").2.2
                (tm.Start st (prop.Extract r.Context r.header) "hello").1 "teste").2.1,
           Effect.write "Hello, World",
           Effect.spanEnd
              (t.Start (tm.Start st (prop.Extract r.Context r.header) "hello").2.2
                (tm.Start st (prop.Extract r.Context r.header) "hello").1 "teste").2.1,
           Effect.spanEnd (tm.Start st (prop.Extract r.Context r.header) "hello").2.1]⟩,
         match w.onWrite "Hello, World" with
         | http.WriteResult.panics v => Status.panicking v
         | _ => Status.running) := by
  cases hw : w.onWrite "Hello, World" <;>
    simp [otelhttp.serve, httpHandler_run, Frame.enter, Frame.defer, Frame.stmt, Frame.leave,
      http.Request.WithContext, http.Request.Context, hw]

/-- With tracers of one SDK provider, the exchange of the wrapped handler is a chain. -/
theorem wrapped_chained (prop : propagation.TextMapPropagator) (tp : sdktrace.TracerProvider)
    (n m : String) (st : TraceState) (w : http.ResponseWriter) (r req : http.Request)
    (pattern : Option String) (status : Status) :
    Exchange.chained ⟨req, pattern,
      (otelhttp.serve prop (tp.Tracer m) "hello" (httpHandler (some (tp.Tracer n))) st w r).1.effects,
      status⟩ := by
  rw [wrapped_run]
  refine ⟨_, _, _, _, rfl, ?_, ?_, ?_, ?_, ?_, ?_⟩
  · exact start_derived tp _ _ _
  · exact (start_name_minted tp _ _ _).1
  · exact (start_name_minted tp _ _ _).1
  · exact (start_child tp _ _ _ _ (start_derived tp st _ "hello")).1
  · exact (start_child tp _ _ _ _ (start_derived tp st _ "hello")).2.1
  · have hfresh := (start_child tp (tp.start st (prop.Extract r.Context r.header) "hello").2.2 _
      "teste" _ (start_derived tp st (prop.Extract r.Context r.header) "hello")).2.2
    have hminted := (start_name_minted tp st (prop.Extract r.Context r.header) "hello").2
    intro heq
    apply freshID_not_minted (tp.start st (prop.Extract r.Context r.header) "hello").2.2
    simp only [sdktrace.TracerProvider.Tracer] at heq
    rw [← hfresh, heq]
    exact hminted

/-- With one route registered, the serve mux picks it for the paths it covers and nothing
for the others. -/
theorem route_single (rt : Route) (path : String) :
    http.route [rt] path = if http.covers rt.pattern path then some rt else none := by
  unfold http.route
  by_cases h : http.covers rt.pattern path <;> simp [List.filter, h]

/-- One request served by a process in which tr and the global provider come from one SDK
provider and /hello is the only route: one exchange is recorded, for the request, and if it
was routed to /hello its spans form a chain. -/
theorem serveRequest_chained (p : Proc) (incoming : http.Request × (String → http.WriteResult))
    (tp : sdktrace.TracerProvider) (n : String) (htr : p.tr = some (tp.Tracer n))
    (htp : p.tracerProvider = some tp)
    (hmux : p.mux = [⟨"/hello", HandlerRef.otelhttpHandler "hello" HandlerRef.handlerFunc⟩]) :
    ∃ x, (http.serveRequest p incoming).served = p.served ++ [x] ∧
      (x.pattern = some "/hello" → x.chained) := by
  unfold http.serveRequest
  rw [hmux, route_single]
  by_cases hc : http.covers "/hello" incoming.1.path
  · simp only [hc, if_true]
    refine ⟨_, rfl, fun _ => ?_⟩
    simp only [HandlerRef.toHandler, otel.Tracer, htp, htr]
    exact wrapped_chained _ _ _ _ _ _ _ _ _ _
  · simp only [hc]
    exact ⟨_, rfl, fun h => by simp at h⟩

/-- All requests served by such a process: every exchange routed to /hello is a chain. -/
theorem serveAll_chained (incoming : List (http.Request × (String → http.WriteResult)))
    (p : Proc) (tp : sdktrace.TracerProvider) (n : String) (htr : p.tr = some (tp.Tracer n))
    (htp : p.tracerProvider = some tp)
    (hmux : p.mux = [⟨"/hello", HandlerRef.otelhttpHandler "hello" HandlerRef.handlerFunc⟩])
    (hserved : ∀ x ∈ p.served, x.pattern = some "/hello" → x.chained) :
    ∀ x ∈ (incoming.foldl http.serveRequest p).served, x.pattern = some "/hello" → x.chained := by
  induction incoming generalizing p with
  | nil => simpa using hserved
  | cons i is ih =>
    obtain ⟨g1, g2, _, g4, _⟩ := serveRequest_globals p i
    obtain ⟨y, hy, hchain⟩ := serveRequest_chained p i tp n htr htp hmux
    simp only [List.foldl_cons]
    apply ih (http.serveRequest p i) (g1.trans htr) (g2.trans htp) (g4.trans hmux)
    intro x hx
    rw [hy] at hx
    rcases List.mem_append.mp hx with h | h
    · exact hserved x h
    · rw [List.mem_singleton.mp h]
      exact hchain

/-- The exchanges of a run of main whose exporter is built are those of the server started in
the ready state. -/
theorem main_served_of_ok (env : Env) (exp : otlptrace.Exporter)
    (h : newExporter env context.Background = Except.ok exp) :
    (main env).1.served = (env.incoming.foldl http.serveRequest (main.ready env exp)).served := by
  rw [main_of_ok env exp h]
  cases env.listenError <;> rfl

/-- In a run of main, every exchange routed to /hello is a chain. -/
theorem main_served_chained (env : Env) :
    ∀ x ∈ (main env).1.served, x.pattern = some "/hello" → x.chained := by
  cases h : newExporter env context.Background with
  | error err =>
    rw [main_of_error env err h]
    intro x hx
    simp at hx
  | ok exp =>
    rw [main_served_of_ok env exp h]
    exact serveAll_chained env.incoming (main.ready env exp) (newTraceProvider exp) "otel/grpc"
      rfl rfl rfl (fun x hx => by simp [main.ready] at hx)

/-- C6: in every run of main, every request routed to /hello yields the span hello of the
middleware and then the span teste of httpHandler, started from the context of the request
the handler was given, which carries the SpanContext of hello; teste has the span id of
hello as parent and the same trace id, so the two form a chain of length 2 in call order. For
httpHandler on its own, with a tracer of an SDK provider: teste is started from r.Context();
if that carries a SpanContext, teste is its child in its trace, and if it carries none, teste
is a root with a trace id that was not issued before. -/
theorem teste_is_child_of_hello (env : Env) :
    (∀ x ∈ (main env).1.served, x.pattern = some "/hello" → x.chained) ∧
      (∀ (tp : sdktrace.TracerProvider) (n : String) (st : TraceState)
          (w : http.ResponseWriter) (r : http.Request),
        ∃ span,
          (httpHandler (some (tp.Tracer n)) st w r).1.effects.head?
              = some (Effect.spanStart r.Context "teste" span) ∧
          (∀ sc, r.Context.span = some sc →
              span.parentSpanID = some sc.spanID ∧ span.context.traceID = sc.traceID) ∧
          (r.Context.span = none →
              span.parentSpanID = none ∧ span.context.traceID ∉ st.minted)) := by
  refine ⟨main_served_chained env, ?_⟩
  intro tp n st w r
  refine ⟨(tp.start st r.Context "teste").2.1, ?_, ?_, ?_⟩
  · rw [httpHandler_run]
    rfl
  · intro sc hsc
    exact ⟨(start_child tp st _ "teste" sc hsc).1, (start_child tp st _ "teste" sc hsc).2.1⟩
  · intro hnone
    exact start_root tp st _ "teste" hnone

set_option maxRecDepth 100000 in
/-- C6, at the sample run: the first exchange is a chain, hello the root of trace 1 and teste
its child. -/
theorem teste_is_child_of_hello_sample :
    (⟨⟨"GET", "/hello", [], "", context.Background⟩, some "/hello",
        [Effect.spanStart context.Background "hello" ⟨"hello", ⟨1, 2, true, []⟩, none⟩,
         Effect.spanStart ⟨none, some ⟨1, 2, true, []⟩⟩ "teste"
           ⟨"teste", ⟨1, 3, true, []⟩, some 2⟩,
         Effect.write "Hello, World",
         Effect.spanEnd ⟨"teste", ⟨1, 3, true, []⟩, some 2⟩,
         Effect.spanEnd ⟨"hello", ⟨1, 2, true, []⟩, none⟩],
        Status.running⟩ : Exchange).chained :=
  (teste_is_child_of_hello sampleEnv).1 _ (by decide) rfl

end ParentLinking

section Surface

/-- C4: wrapHandler registers exactly one pattern, /hello; for every request, writer and
tracer, httpHandler makes exactly one Write, of the bytes Hello, World, so the body written
is the same whatever the request and the tracer; and in every run of main, every exchange
routed to /hello contains that one Write and no other. -/
theorem hello_route_fixed_body :
    (wrapHandler Proc.initial).1.mux.map Route.pattern = ["/hello"] ∧
      (∀ p : Proc, (wrapHandler p).2 = Status.running →
        (wrapHandler p).1.mux.map Route.pattern = p.mux.map Route.pattern ++ ["/hello"]) ∧
      (∀ (t : Tracer) (st : TraceState) (w : http.ResponseWriter) (r : http.Request),
        (httpHandler (some t) st w r).1.w.body = w.body ++ ["Hello, World"] ∧
        (httpHandler (some t) st w r).1.effects.filter
            (fun e => match e with | Effect.write _ => true | _ => false)
          = [Effect.write "Hello, World"]) ∧
      (∀ (t t' : Tracer) (st st' : TraceState) (w : http.ResponseWriter)
          (r r' : http.Request),
        (httpHandler (some t) st w r).1.w.body = (httpHandler (some t') st' w r').1.w.body) ∧
      (∀ (env : Env), ∀ x ∈ (main env).1.served, x.pattern = some "/hello" →
        x.effects.filter (fun e => match e with | Effect.write _ => true | _ => false)
          = [Effect.write "Hello, World"]) := by
  refine ⟨by decide, ?_, ?_, ?_, ?_⟩
  · intro p hp
    unfold wrapHandler http.Handle at hp ⊢
    simp only [otelhttp.NewHandler] at hp ⊢
    split_ifs at hp ⊢
    simp_all [Proc.record]
  · intro t st w r
    simp [httpHandler_run]
  · intro t t' st st' w r r'
    simp [httpHandler_run]
  · intro env x hx hpattern
    obtain ⟨ambient, derived, hello, teste, heff, _⟩ := main_served_chained env x hx hpattern
    simp [heff]

end Surface

section Initialisation

/-- C10: in every run of main that calls ListenAndServe, the exporter was built and, before
the route /hello is registered, tr has been assigned the tracer otel/grpc of the provider,
the Shutdown has been deferred, and the global tracer provider and propagator have been set;
ListenAndServe comes after the registration and not before; tr holds that tracer, and every
exchange the server routes to /hello contains the Start of the span teste, which httpHandler
reaches only with a tracer in tr. -/
theorem main_initialises_before_serving (env : Env) (addr : String)
    (h : Event.listenAndServe addr ∈ (main env).1.log) :
    ∃ exp pre post,
      newExporter env context.Background = Except.ok exp ∧
        (main env).1.log
          = pre ++ Event.handle "/hello" (HandlerRef.otelhttpHandler "hello" HandlerRef.handlerFunc)
              :: post ∧
        Event.assignTr "otel/grpc" ∈ pre ∧
        Event.deferShutdown context.Background ∈ pre ∧
        Event.setTracerProvider (newTraceProvider exp) ∈ pre ∧
        Event.setTextMapPropagator ["TraceContext", "Baggage"] ∈ pre ∧
        (∀ a, Event.listenAndServe a ∉ pre) ∧
        (∀ pattern handler, Event.handle pattern handler ∉ pre) ∧
        Event.listenAndServe addr ∈ post ∧
        (main env).1.tr = some ((newTraceProvider exp).Tracer "otel/grpc") ∧
        (main env).1.tracerProvider = some (newTraceProvider exp) ∧
        (∀ x ∈ (main env).1.served, x.pattern = some "/hello" →
          ∃ ambient span, Effect.spanStart ambient "teste" span ∈ x.effects) := by
  cases hexp : newExporter env context.Background with
  | error err =>
    rw [main_of_error env err hexp] at h
    simp at h
  | ok exp =>
    have hlog := main_log_of_ok env exp hexp
    have hglobals := serveAll_globals env.incoming (main.ready env exp)
    refine ⟨exp,
      [Event.otlptraceNew context.Background
          (otlptracegrpc.NewClient env.grpcDefaults newExporter.opts),
       Event.newTracerProvider (newTraceProvider exp),
       Event.assignTr "otel/grpc",
       Event.deferShutdown context.Background,
       Event.setTracerProvider (newTraceProvider exp),
       Event.setTextMapPropagator ["TraceContext", "Baggage"]],
      Event.listenAndServe ":8080" ::
        (match env.listenError with
         | some _ => [Event.tpShutdown context.Background]
         | none => []),
      rfl, ?_, by simp, by simp, by simp, by simp, by simp, by simp, ?_, ?_, ?_, ?_⟩
    · rw [hlog]
      simp [main.startupLog]
    · rw [hlog] at h
      cases hl : env.listenError <;> simp [hl, main.startupLog] at h ⊢ <;> exact h
    · rw [main_of_ok env exp hexp]
      cases env.listenError
      · simp only [hglobals.1]
        rfl
      · simp only [Proc.record, hglobals.1]
        rfl
    · rw [main_of_ok env exp hexp]
      cases env.listenError
      · simp only [hglobals.2.1]
        rfl
      · simp only [Proc.record, hglobals.2.1]
        rfl
    · intro x hx hpattern
      obtain ⟨ambient, derived, hello, teste, heff, _⟩ := main_served_chained env x hx hpattern
      exact ⟨derived, teste, by simp [heff]⟩

set_option maxRecDepth 100000 in
/-- C10, at the sample run, which calls ListenAndServe on :8080. -/
theorem main_initialises_before_serving_sample :
    ∃ exp pre post,
      newExporter sampleEnv context.Background = Except.ok exp ∧
        (main sampleEnv).1.log
          = pre ++ Event.handle "/hello" (HandlerRef.otelhttpHandler "hello" HandlerRef.handlerFunc)
              :: post ∧
        Event.assignTr "otel/grpc" ∈ pre ∧
        Event.deferShutdown context.Background ∈ pre ∧
        Event.setTracerProvider (newTraceProvider exp) ∈ pre ∧
        Event.setTextMapPropagator ["TraceContext", "Baggage"] ∈ pre ∧
        (∀ a, Event.listenAndServe a ∉ pre) ∧
        (∀ pattern handler, Event.handle pattern handler ∉ pre) ∧
        Event.listenAndServe ":8080" ∈ post ∧
        (main sampleEnv).1.tr = some ((newTraceProvider exp).Tracer "otel/grpc") ∧
        (main sampleEnv).1.tracerProvider = some (newTraceProvider exp) ∧
        (∀ x ∈ (main sampleEnv).1.served, x.pattern = some "/hello" →
          ∃ ambient span, Effect.spanStart ambient "teste" span ∈ x.effects) :=
  main_initialises_before_serving sampleEnv ":8080" (by decide)

end Initialisation

section Propagation

open propagation

/-- A digit reads back as its value. -/
theorem hexValue_hexDigit (d : Nat) (hd : d < 16) : hexValue (hexDigit d) = some d := by
  interval_cases d <;> decide

/-- Fixed-width hexadecimal text has the width asked for. -/
theorem toHex_length (w n : Nat) : (toHex w n).length = w := by
  induction w generalizing n with
  | zero => rfl
  | succ w ih => simp [toHex, ih]

/-- A number that fits in the width reads back from its hexadecimal text. -/
theorem fromHex_toHex (w n : Nat) (hn : n < 16 ^ w) : fromHex (toHex w n) = some n := by
  induction w generalizing n with
  | zero =>
    have : n = 0 := by simpa using hn
    subst this
    rfl
  | succ w ih =>
    have hdiv : n / 16 < 16 ^ w := by
      apply Nat.div_lt_of_lt_mul
      rw [pow_succ] at hn
      omega
    have hrec := ih (n / 16) hdiv
    unfold fromHex at hrec ⊢
    simp only [toHex, List.foldl_append, hrec, List.foldl_cons, List.foldl_nil, hexStep,
      hexValue_hexDigit (n % 16) (Nat.mod_lt _ (by norm_num))]
    congr 1
    omega

/-- The composite header value reads back as the trace id, the span id and the flag. -/
theorem decode_encodeTraceparent (sc : SpanContext) (ht : sc.traceID < 2 ^ 128)
    (hs : sc.spanID < 2 ^ 64) :
    decodeTraceparent (encodeTraceparent sc) = some (sc.traceID, sc.spanID, sc.sampled) := by
  have h1 : fromHex (toHex 32 sc.traceID) = some sc.traceID :=
    fromHex_toHex 32 _ (by norm_num at ht ⊢; exact ht)
  have h2 : fromHex (toHex 16 sc.spanID) = some sc.spanID :=
    fromHex_toHex 16 _ (by norm_num at hs ⊢; exact hs)
  have h3 : fromHex (toHex 2 (if sc.sampled then 1 else 0))
      = some (if sc.sampled then 1 else 0) :=
    fromHex_toHex 2 _ (by split <;> norm_num)
  unfold encodeTraceparent decodeTraceparent
  simp only [List.cons_append, List.nil_append, List.take_left' (toHex_length 32 _),
    List.drop_left' (toHex_length 32 _), List.take_left' (toHex_length 16 _),
    List.drop_left' (toHex_length 16 _), toHex_length, h1, h2, h3, and_self, if_true]
  cases sc.sampled <;> simp

/-- Text without the separator before its first occurrence splits there. -/
theorem splitFirst_append (sep : Char) (k v : List Char) (hk : sep ∉ k) :
    splitFirst sep (k ++ sep :: v) = some (k, v) := by
  induction k with
  | nil => simp [splitFirst]
  | cons c cs ih =>
    have hc : c ≠ sep := fun h => hk (by simp [h])
    have hcs : sep ∉ cs := fun h => hk (by simp [h])
    simp [splitFirst, hc, ih hcs]

/-- Text without the separator is one piece. -/
theorem splitOn_of_not_mem (sep : Char) (a : List Char) (ha : sep ∉ a) :
    splitOn sep a = [a] := by
  induction a with
  | nil => rfl
  | cons c cs ih =>
    have hc : c ≠ sep := fun h => ha (by simp [h])
    have hcs : sep ∉ cs := fun h => ha (by simp [h])
    simp [splitOn, hc, ih hcs]

/-- Text without the separator, then the separator: the first piece is that text. -/
theorem splitOn_append (sep : Char) (a rest : List Char) (ha : sep ∉ a) :
    splitOn sep (a ++ sep :: rest) = a :: splitOn sep rest := by
  induction a with
  | nil => simp [splitOn]
  | cons c cs ih =>
    have hc : c ≠ sep := fun h => ha (by simp [h])
    have hcs : sep ∉ cs := fun h => ha (by simp [h])
    simp [splitOn, hc, ih hcs]

/-- Pieces without the separator come back from their joined text. -/
theorem splitOn_joinWith (sep : Char) (pieces : List (List Char)) (hne : pieces ≠ [])
    (hp : ∀ piece ∈ pieces, sep ∉ piece) : splitOn sep (joinWith sep pieces) = pieces := by
  induction pieces with
  | nil => exact absurd rfl hne
  | cons a rest ih =>
    cases rest with
    | nil => simpa [joinWith] using splitOn_of_not_mem sep a (hp a (by simp))
    | cons b more =>
      have hrest := ih (by simp) (fun piece h => hp piece (List.mem_cons_of_mem _ h))
      simp only [joinWith]
      rw [splitOn_append sep a _ (hp a (by simp)), hrest]

/-- The members of a baggage read back. -/
theorem decodeMembers_encode (bag : List (String × String))
    (hbag : ∀ kv ∈ bag, '=' ∉ kv.1.data) :
    decodeMembers (bag.map encodeMember) = some bag := by
  induction bag with
  | nil => rfl
  | cons kv kvs ih =>
    have hmember : decodeMember (encodeMember kv) = some kv := by
      unfold decodeMember encodeMember
      rw [splitFirst_append _ _ _ (hbag kv (by simp))]
      rfl
    simp [decodeMembers, hmember, ih (fun x hx => hbag x (List.mem_cons_of_mem _ hx))]

/-- A non-empty baggage reads back from its encoding. -/
theorem decode_encodeBaggage (bag : List (String × String)) (hne : bag ≠ [])
    (hbag : ∀ kv ∈ bag, ',' ∉ kv.1.data ∧ '=' ∉ kv.1.data ∧ ',' ∉ kv.2.data) :
    decodeBaggage (encodeBaggage bag) = some bag := by
  unfold decodeBaggage encodeBaggage
  rw [splitOn_joinWith]
  · exact decodeMembers_encode bag (fun kv h => (hbag kv h).2.1)
  · simpa using hne
  · intro piece hpiece
    obtain ⟨kv, hkv, rfl⟩ := List.mem_map.mp hpiece
    have := hbag kv hkv
    simp [encodeMember, this.1, this.2.2]

/-- C8: for the propagator main registers, the composite of TraceContext then Baggage, and
every valid SpanContext: injecting a context that carries it into the empty carrier and
extracting from that carrier gives a context carrying the same SpanContext, that is the same
trace id, span id, sampling flag and baggage; extracting from the empty carrier gives no
span context and leaves the context as it was. -/
theorem propagation_round_trip (sc : SpanContext) (hv : sc.valid) (ctx0 : Context)
    (deadline : Option Nat) :
    (main.propagator.Extract ctx0 (main.propagator.Inject ⟨deadline, some sc⟩ [])).span = some sc ∧
      (main.propagator.Extract context.Background []).span = none ∧
      main.propagator.Extract ctx0 [] = ctx0 := by
  obtain ⟨⟨_, ht⟩, ⟨_, hs⟩, hbag⟩ := hv
  have htp := decode_encodeTraceparent sc ht hs
  refine ⟨?_, rfl, ?_⟩
  swap
  · cases hspan : ctx0.span <;>
      simp [main.propagator, NewCompositeTextMapPropagator, TraceContext, Baggage, Carrier.Get,
        List.lookup, hspan]
  by_cases hb : sc.baggage = []
  · simp [main.propagator, NewCompositeTextMapPropagator, TraceContext, Baggage, Carrier.Set,
      Carrier.Get, List.lookup, hb, htp]
    cases sc
    simp_all
  · have hbg := decode_encodeBaggage sc.baggage hb hbag
    simp [main.propagator, NewCompositeTextMapPropagator, TraceContext, Baggage, Carrier.Set,
      Carrier.Get, List.lookup, hb, htp, hbg]

/-- C8, at a SpanContext with two baggage members. -/
theorem propagation_round_trip_sample :
    (⟨170, 187, true, [("user", "alice"), ("k", "a=b")]⟩ : SpanContext).valid ∧
      ((main.propagator.Extract context.Background
          (main.propagator.Inject ⟨none, some ⟨170, 187, true, [("user", "alice"), ("k", "a=b")]⟩⟩
            [])).span = some ⟨170, 187, true, [("user", "alice"), ("k", "a=b")]⟩ ∧
        (main.propagator.Extract context.Background []).span = none ∧
        main.propagator.Extract context.Background [] = context.Background) :=
  ⟨⟨by norm_num, by norm_num, by decide⟩,
    propagation_round_trip _ ⟨by norm_num, by norm_num, by decide⟩ context.Background none⟩

end Propagation

end OtelSample
